import Mathlib

/-!
Shallow embedding of the Aura keyboard-LED controller
(`asusd/src/ctrl_aura/controller.rs` and `daemon/src/ctrl_aura/zbus.rs`)
together with proofs of the specification claims.

Device I/O is modelled by an oracle `dev : Nat -> Bool` giving the
success of the n-th physical write of an operation, and every attempted
write is recorded in a trace.  Config persistence (`config.write()`) is
recorded as a list of persisted snapshots; `config.read()` is modelled
by an explicit `disk` argument holding the on-disk config.
-/

set_option autoImplicit false

namespace Asusctl

/-- Builtin effect mode identifiers (from `rog_aura::AuraModeNum`;
a representative finite subset with their numeric discriminants). -/
inductive AuraModeNum where
  | Static
  | Breathe
  | Strobe
  | Rainbow
  | Laser
  | Pulse
  deriving DecidableEq, Repr

/-- Zone identifiers (from `rog_aura::AuraZone`), `None` is the
"no zone" sentinel. -/
inductive AuraZone where
  | None
  | Key1
  | Key2
  | Key3
  | Key4
  | Logo
  | Lightbar
  deriving DecidableEq, Repr

/-- An RGB colour, three bytes. -/
structure Colour where
  r : Nat
  g : Nat
  b : Nat
  deriving DecidableEq, Repr

/-- Effect speed (from `rog_aura::Speed`). -/
inductive Speed where
  | Low
  | Med
  | High
  deriving DecidableEq, Repr

/-- Effect direction (from `rog_aura::Direction`). -/
inductive Direction where
  | Right
  | Left
  | Up
  | Down
  deriving DecidableEq, Repr

/-- Brightness levels 0-3 (from `rog_aura::LedBrightness`). -/
inductive LedBrightness where
  | Off
  | Low
  | Med
  | High
  deriving DecidableEq, Repr

/-- Numeric value of a brightness level (the `as u32` cast). -/
def LedBrightness.toNat : LedBrightness → Nat
  | .Off => 0
  | .Low => 1
  | .Med => 2
  | .High => 3

/-- Modelled from the spec: `From<u32> for LedBrightness` (in
`rog_aura`, not under `src/`); brightness is 0-3 = Off/Low/Med/High. -/
def LedBrightness.fromNat : Nat → LedBrightness
  | 0 => .Off
  | 1 => .Low
  | 2 => .Med
  | _ => .High

/-- One builtin effect instance (`rog_aura::AuraEffect`). -/
structure AuraEffect where
  mode : AuraModeNum
  zone : AuraZone
  colour1 : Colour
  colour2 : Colour
  speed : Speed
  direction : Direction
  deriving DecidableEq, Repr

/-- Device capability snapshot (`rog_aura::aura_detection::LaptopLedData`,
the fields the controller uses). -/
structure LaptopLedData where
  basic_modes : List AuraModeNum
  basic_zones : List AuraZone
  deriving DecidableEq, Repr

/-- Association-list lookup by key, first match wins (models
`BTreeMap::get`). -/
def lookupKey {α : Type} (l : List (AuraModeNum × α)) (k : AuraModeNum) : Option α :=
  match l with
  | [] => none
  | p :: rest => if p.1 = k then some p.2 else lookupKey rest k

/-- Association-list insert-or-replace (models `BTreeMap::insert`). -/
def insertKey {α : Type} (l : List (AuraModeNum × α)) (k : AuraModeNum) (v : α) :
    List (AuraModeNum × α) :=
  match l with
  | [] => [(k, v)]
  | p :: rest => if p.1 = k then (k, v) :: rest else p :: insertKey rest k v

/-- The persisted configuration (`asusd`'s `AuraConfig`, the fields the
controller uses; maps are modelled as association lists). -/
structure AuraConfig where
  builtins : List (AuraModeNum × AuraEffect)
  multizone : Option (List (AuraModeNum × List AuraEffect))
  multizone_on : Bool
  current_mode : AuraModeNum
  brightness : LedBrightness
  deriving DecidableEq, Repr

/-- Error kinds used by the controller (`RogError`). -/
inductive RogError where
  | NoAuraKeyboard
  | AuraEffectNotSupported
  | DeviceWriteFailed
  | Platform
  deriving DecidableEq, Repr

/-- The resolved control path (`LEDNode`); handles are abstracted away. -/
inductive LEDNode where
  | KbdLed
  | Rog
  | None
  deriving DecidableEq, Repr

/-- A physical write attempt, as recorded in the trace. -/
inductive Packet where
  | bytes (b : List Nat)
  | tufRgb (b : List Nat)
  | tufState (b : List Nat)
  | brightness (n : Nat)
  deriving DecidableEq, Repr

/-- The controller (`CtrlKbdLed`, fields the claims need). -/
structure CtrlKbdLed where
  led_node : LEDNode
  supported_modes : LaptopLedData
  flip_effect_write : Bool
  per_key_mode_active : Bool
  config : AuraConfig
  deriving DecidableEq, Repr

/-- Operation state: the controller plus the observable histories —
attempted device writes, persisted config snapshots, and the count of
device writes so far (indexing the success oracle). -/
structure WSt where
  ctrl : CtrlKbdLed
  trace : List Packet
  persisted : List AuraConfig
  nWrites : Nat
  deriving DecidableEq, Repr

/-- Sequencing with early exit, the `?` operator. -/
def andThen (r : WSt × Except RogError Unit) (f : WSt → WSt × Except RogError Unit) :
    WSt × Except RogError Unit :=
  match r with
  | (s, .ok _) => f s
  | (s, .error e) => (s, .error e)

/-- Attempt one physical write: record it in the trace and consume the
next oracle answer. -/
def devWrite (dev : Nat → Bool) (p : Packet) (s : WSt) : WSt × Except RogError Unit :=
  let ok := dev s.nWrites
  let s' := { s with trace := s.trace ++ [p], nWrites := s.nWrites + 1 }
  (s', if ok then .ok () else .error .DeviceWriteFailed)

/-- Record a `config.write()` persistence of the current config. -/
def persist (s : WSt) : WSt :=
  { s with persisted := s.persisted ++ [s.ctrl.config] }

/-- Replace the in-memory config by the on-disk one (`config.read()`). -/
def configRead (s : WSt) (disk : AuraConfig) : WSt :=
  { s with ctrl := { s.ctrl with config := disk } }

/-- Update the in-memory config by a function. -/
def updConfig (s : WSt) (f : AuraConfig → AuraConfig) : WSt :=
  { s with ctrl := { s.ctrl with config := f s.ctrl.config } }

/-- Modelled from the spec: the fixed gradient palette `rog_aura::GRADIENT`
(in `rog_aura`, not under `src/`): seven concrete colours; the code indexes
positions 0 and 6 directly, so the palette has at least seven entries. -/
def GRADIENT : List Colour :=
  [⟨255, 0, 0⟩, ⟨255, 127, 0⟩, ⟨255, 255, 0⟩, ⟨0, 255, 0⟩,
   ⟨0, 255, 255⟩, ⟨0, 0, 255⟩, ⟨127, 0, 255⟩]

/-- Modelled from the spec: the fixed `LED_SET` control packet of
`rog_aura::usb` (not under `src/`); only its identity matters here. -/
def LED_SET : List Nat := [0x5d, 0xb5, 0, 0, 0]

/-- Modelled from the spec: the fixed `LED_APPLY` control packet of
`rog_aura::usb` (not under `src/`); the device does not persist changes
without it. -/
def LED_APPLY : List Nat := [0x5d, 0xb4, 0, 0, 0]

/-- Modelled from the spec: the fixed initialization packet of the
per-key streaming protocol (`LedUsbPackets::get_init_msg`, not under
`src/`). -/
def get_init_msg : List Nat := [0x5d, 0xbc, 1, 1, 4]

/-- Numeric discriminant of a mode (the `as u8` cast, values from
`rog_aura::AuraModeNum`). -/
def AuraModeNum.toNat : AuraModeNum → Nat
  | .Static => 0
  | .Breathe => 1
  | .Strobe => 2
  | .Rainbow => 3
  | .Laser => 7
  | .Pulse => 10

/-- Numeric discriminant of a zone (`rog_aura::AuraZone`). -/
def AuraZone.toNat : AuraZone → Nat
  | .None => 0
  | .Key1 => 1
  | .Key2 => 2
  | .Key3 => 3
  | .Key4 => 4
  | .Logo => 5
  | .Lightbar => 6

/-- Numeric value of a speed (`rog_aura::Speed`). -/
def Speed.toNat : Speed → Nat
  | .Low => 0xe1
  | .Med => 0xeb
  | .High => 0xf5

/-- Numeric value of a direction (`rog_aura::Direction`). -/
def Direction.toNat : Direction → Nat
  | .Right => 0
  | .Left => 1
  | .Up => 2
  | .Down => 3

/-- Modelled from the spec: the fixed-length raw-HID effect message
(`impl From<&AuraEffect> for [u8; LED_MSG_LEN]` in `rog_aura`, not under
`src/`): mode, zone, colours, speed and direction at fixed offsets. -/
def auraEffectBytes (e : AuraEffect) : List Nat :=
  [0x5d, 0xb3, e.zone.toNat, e.mode.toNat,
   e.colour1.r, e.colour1.g, e.colour1.b,
   e.speed.toNat, e.direction.toNat,
   e.colour2.r, e.colour2.g, e.colour2.b]

/-- Modelled from the spec: a sane default `AuraEffect` for a mode
(used by the fresh default config). -/
def defaultEffect (m : AuraModeNum) : AuraEffect :=
  { mode := m
    zone := .None
    colour1 := ⟨166, 0, 0⟩
    colour2 := ⟨0, 0, 0⟩
    speed := .Med
    direction := .Right }

/-- Wrapping usize subtraction (release-mode Rust semantics of
`a - b` on `usize`). -/
def usizeSub (a b : Nat) : Nat :=
  (a + (2 ^ 64 - b % 2 ^ 64)) % 2 ^ 64

/-- The per-zone default effect list built by `create_multizone_default`
(`controller.rs` lines 377-387): one `AuraEffect` per entry of
`basic_zones`, colours from the gradient palette via guarded `get` with
`unwrap_or` fallbacks. -/
def multizoneDefaultSet (current : AuraModeNum) (zones : List AuraZone) :
    List AuraEffect :=
  zones.enum.map fun p =>
    { mode := current
      zone := p.2
      colour1 := (GRADIENT.get? p.1).getD (GRADIENT.getD 0 ⟨0, 0, 0⟩)
      colour2 := (GRADIENT.get? (usizeSub GRADIENT.length p.1)).getD
        (GRADIENT.getD 6 ⟨0, 0, 0⟩)
      speed := .Med
      direction := .Left }

/-- Modelled from the spec: the freshly-constructed default config
(`AuraConfig::new` / `from_default_support`, in `asusd`'s `config.rs`,
not under `src/`): one default builtin entry per mode in `basic_modes`;
a default multizone set per mode when `basic_zones` is non-empty, built
the same way as `create_multizone_default`; multizone absent when there
are no zones. -/
def AuraConfig.newDefault (supported : LaptopLedData) : AuraConfig :=
  { builtins := supported.basic_modes.map fun m => (m, defaultEffect m)
    multizone :=
      if supported.basic_zones.isEmpty then none
      else some (supported.basic_modes.map fun m =>
        (m, multizoneDefaultSet m supported.basic_zones))
    multizone_on := false
    current_mode := .Static
    brightness := .Med }

/-- Modelled from the spec: `AuraConfig::set_builtin` (in `asusd`'s
`config.rs`, not under `src/`): store the effect in `builtins` under its
mode and make that mode current. -/
def AuraConfig.set_builtin (cfg : AuraConfig) (effect : AuraEffect) : AuraConfig :=
  { cfg with
    current_mode := effect.mode
    builtins := insertKey cfg.builtins effect.mode effect }

/-- The builtins half of the construction-time merge (`controller.rs`
lines 118-125): every fresh-default entry is overwritten by the loaded
entry of the same mode when one exists, and the result replaces the
loaded builtins wholesale. -/
def mergeBuiltins (initB loadedB : List (AuraModeNum × AuraEffect)) :
    List (AuraModeNum × AuraEffect) :=
  initB.map fun p =>
    match lookupKey loadedB p.1 with
    | some v => (p.1, v)
    | none => p

/-- The multizone half of the construction-time merge (`controller.rs`
lines 127-144): only runs when both the fresh default and the loaded
config carry a multizone map; each fresh-default entry whose mode has a
loaded entry is replaced by the loaded list filtered element-wise on the
effect's own `mode` field, and the result replaces the loaded multizone
wholesale. -/
def mergeMZEntries (basic_modes : List AuraModeNum)
    (mzLoaded mzInit : List (AuraModeNum × List AuraEffect)) :
    List (AuraModeNum × List AuraEffect) :=
  mzInit.map fun p =>
    match lookupKey mzLoaded p.1 with
    | some loaded =>
        (p.1, loaded.filter fun e => basic_modes.contains e.mode)
    | none => p

/-- The outer shape of the multizone merge: it only runs when both sides
carry a multizone map, and the updated fresh default replaces the loaded
multizone wholesale. -/
def mergeMultizone (basic_modes : List AuraModeNum)
    (initMZ loadedMZ : Option (List (AuraModeNum × List AuraEffect))) :
    Option (List (AuraModeNum × List AuraEffect)) :=
  match initMZ, loadedMZ with
  | some mzInit, some mzLoaded =>
      some (mergeMZEntries basic_modes mzLoaded mzInit)
  | _, _ => loadedMZ

/-- The full construction-time merge of `CtrlKbdLed::new` (`controller.rs`
lines 114-144): loaded config with its builtins and multizone replaced by
the merged maps. -/
def mergedConfig (supported : LaptopLedData) (loaded : AuraConfig) : AuraConfig :=
  let init := AuraConfig.newDefault supported
  { loaded with
    builtins := mergeBuiltins init.builtins loaded.builtins
    multizone := mergeMultizone supported.basic_modes init.multizone loaded.multizone }

/-- `CtrlKbdLed::set_brightness` (`controller.rs` lines 164-168): apply
a brightness level to the platform LED; platform errors are mapped to
`RogError::Platform`. -/
def set_brightness (dev : Nat → Bool) (b : LedBrightness) (s : WSt) :
    WSt × Except RogError Unit :=
  match devWrite dev (.brightness b.toNat) s with
  | (s', .ok _) => (s', .ok ())
  | (s', .error _) => (s', .error .Platform)

/-- `CtrlKbdLed::write_mode` (`controller.rs` lines 314-336): encode the
effect for the active control path and write it; on the raw-HID path the
effect message is followed by `LED_SET` and `LED_APPLY`; with no path,
fail with `NoAuraKeyboard`; on success clear `per_key_mode_active`. -/
def write_mode (dev : Nat → Bool) (mode : AuraEffect) (s : WSt) :
    WSt × Except RogError Unit :=
  let clearFlag := fun (s' : WSt) =>
    ({ s' with ctrl := { s'.ctrl with per_key_mode_active := false } },
     (.ok () : Except RogError Unit))
  match s.ctrl.led_node with
  | .KbdLed =>
      let buf := [1, mode.mode.toNat, mode.colour1.r, mode.colour1.g,
                  mode.colour1.b, mode.speed.toNat]
      andThen (devWrite dev (.tufRgb buf) s) clearFlag
  | .Rog =>
      andThen (devWrite dev (.bytes (auraEffectBytes mode)) s) fun s1 =>
      andThen (devWrite dev (.bytes LED_SET) s1) fun s2 =>
      andThen (devWrite dev (.bytes LED_APPLY) s2) clearFlag
  | .None => (s, .error .NoAuraKeyboard)

/-- `CtrlKbdLed::next_brightness` (`controller.rs` lines 170-178):
increment with wraparound above 3, persist, then apply to the device. -/
def next_brightness (dev : Nat → Bool) (s : WSt) : WSt × Except RogError Unit :=
  let bright := s.ctrl.config.brightness.toNat + 1
  let bright := if bright > 3 then 0 else bright
  let s := updConfig s fun c => { c with brightness := LedBrightness.fromNat bright }
  let s := persist s
  set_brightness dev s.ctrl.config.brightness s

/-- `CtrlKbdLed::prev_brightness` (`controller.rs` lines 180-190):
decrement with wraparound below 0, persist, then apply to the device. -/
def prev_brightness (dev : Nat → Bool) (s : WSt) : WSt × Except RogError Unit :=
  let bright := s.ctrl.config.brightness.toNat
  let bright := if bright = 0 then 3 else bright - 1
  let s := updConfig s fun c => { c with brightness := LedBrightness.fromNat bright }
  let s := persist s
  set_brightness dev s.ctrl.config.brightness s

/-- `CtrlKbdLed::set_effect` (`controller.rs` lines 216-233): reject
unsupported mode/zone before any side effect; otherwise write the mode
to the device, and only on success reload the config from disk, store
the effect, bump brightness Off to Med, persist, and apply brightness. -/
def set_effect (dev : Nat → Bool) (disk : AuraConfig) (effect : AuraEffect)
    (s : WSt) : WSt × Except RogError Unit :=
  if !s.ctrl.supported_modes.basic_modes.contains effect.mode
      || (effect.zone != AuraZone.None
          && !s.ctrl.supported_modes.basic_zones.contains effect.zone) then
    (s, .error .AuraEffectNotSupported)
  else
    andThen (write_mode dev effect s) fun s1 =>
      let s2 := configRead s1 disk
      let s3 := updConfig s2 fun c => c.set_builtin effect
      let s4 := updConfig s3 fun c =>
        if c.brightness = LedBrightness.Off then { c with brightness := .Med } else c
      let s5 := persist s4
      set_brightness dev s5.ctrl.config.brightness s5

/-- Write a sequence of raw rows to the raw-HID path, aborting on the
first failure (the row loop of `write_effect_block`). -/
def writeRows (dev : Nat → Bool) (rows : List (List Nat)) (s : WSt) :
    WSt × Except RogError Unit :=
  match rows with
  | [] => (s, .ok ())
  | r :: rest => andThen (devWrite dev (.bytes r) s) (writeRows dev rest)

/-- Write the TUF approximation of a per-key frame: for each row only the
colour bytes at offsets 9-11 are extracted and written via the simple
set-colour call (`write_effect_block`, TUF branch). -/
def writeTufRows (dev : Nat → Bool) (rows : List (List Nat)) (s : WSt) :
    WSt × Except RogError Unit :=
  match rows with
  | [] => (s, .ok ())
  | r :: rest =>
      let buf := [0, 0, r.getD 9 0, r.getD 10 0, r.getD 11 0, 0]
      andThen (devWrite dev (.tufRgb buf) s) (writeTufRows dev rest)

/-- `CtrlKbdLed::write_effect_block` (`controller.rs` lines 238-277):
bump brightness Off to Med and persist it first; inspect byte 1 of the
first row for the per-key sentinel `0xbc`; a non-per-key frame clears the
per-key flag and writes the single packet plus `LED_SET` on the raw-HID
path; a per-key frame writes the initialization packet first when
transitioning into per-key mode, then every row in order, and finally
toggles the heartbeat flag. -/
def write_effect_block (dev : Nat → Bool) (effect : List (List Nat)) (s : WSt) :
    WSt × Except RogError Unit :=
  let s :=
    if s.ctrl.config.brightness = LedBrightness.Off then
      persist (updConfig s fun c => { c with brightness := .Med })
    else s
  let pkt_type := (effect.getD 0 []).getD 1 0
  if pkt_type ≠ 0xbc then
    let s := { s with ctrl := { s.ctrl with per_key_mode_active := false } }
    match s.ctrl.led_node with
    | .Rog =>
        andThen (devWrite dev (.bytes (effect.getD 0 [])) s) fun s1 =>
          devWrite dev (.bytes LED_SET) s1
    | _ => (s, .ok ())
  else
    let step1 :=
      if !s.ctrl.per_key_mode_active then
        let afterInit :=
          match s.ctrl.led_node with
          | .Rog => devWrite dev (.bytes get_init_msg) s
          | _ => (s, .ok ())
        andThen afterInit fun s1 =>
          ({ s1 with ctrl := { s1.ctrl with per_key_mode_active := true } }, .ok ())
      else (s, .ok ())
    andThen step1 fun s1 =>
      let written :=
        match s1.ctrl.led_node with
        | .Rog => writeRows dev effect s1
        | .KbdLed => writeTufRows dev effect s1
        | .None => (s1, .ok ())
      andThen written fun s2 =>
        ({ s2 with ctrl :=
            { s2.ctrl with flip_effect_write := !s2.ctrl.flip_effect_write } },
         .ok ())

/-- `CtrlKbdLed::create_multizone_default` (`controller.rs` lines
376-400): build one default `AuraEffect` per entry of `basic_zones`;
fail with `AuraEffectNotSupported` when the list is empty; otherwise
insert the set into `multizone` under `current_mode`, creating the map
when absent. -/
def create_multizone_default (s : WSt) : WSt × Except RogError Unit :=
  let default := multizoneDefaultSet s.ctrl.config.current_mode
      s.ctrl.supported_modes.basic_zones
  if default.isEmpty then
    (s, .error .AuraEffectNotSupported)
  else
    let s := updConfig s fun c =>
      match c.multizone with
      | some mz => { c with multizone := some (insertKey mz c.current_mode default) }
      | none => { c with multizone := some [(c.current_mode, default)] }
    (s, .ok ())

/-- Write each effect of a multizone set in order via `write_mode`,
aborting on the first failure (the zone loop of
`write_current_config_mode`). -/
def writeModes (dev : Nat → Bool) (set : List AuraEffect) (s : WSt) :
    WSt × Except RogError Unit :=
  match set with
  | [] => (s, .ok ())
  | e :: rest => andThen (write_mode dev e s) (writeModes dev rest)

/-- The final stage of `write_current_config_mode`'s multizone branch
(`controller.rs` lines 357-363): write every effect of the multizone set
stored for `mode`, if any. -/
def writeStoredMZ (dev : Nat → Bool) (mode : AuraModeNum) (s1 : WSt) :
    WSt × Except RogError Unit :=
  match s1.ctrl.config.multizone with
  | some mz =>
      match lookupKey mz mode with
      | some set => writeModes dev set s1
      | none => (s1, .ok ())
  | none => (s1, .ok ())

/-- `CtrlKbdLed::write_current_config_mode` (`controller.rs` lines
338-372): when `multizone_on`, synthesize a default multizone set for
`current_mode` if none is stored, then write every effect of the stored
set in zone order; otherwise write the single builtin effect of
`current_mode`. -/
def write_current_config_mode (dev : Nat → Bool) (s : WSt) :
    WSt × Except RogError Unit :=
  if s.ctrl.config.multizone_on then
    let mode := s.ctrl.config.current_mode
    let create :=
      match s.ctrl.config.multizone with
      | none => true
      | some mz => (lookupKey mz mode).isNone
    andThen (if create then create_multizone_default s else (s, .ok ()))
      (writeStoredMZ dev mode)
  else
    match lookupKey s.ctrl.config.builtins s.ctrl.config.current_mode with
    | some effect => write_mode dev effect s
    | none => (s, .ok ())

/-- `CtrlKbdLed::toggle_mode` (`controller.rs` lines 279-312): find
`current_mode` in `basic_modes` (no-op when absent), step the index with
wraparound, reload the config from disk, set the stepped mode as
current, write it out, and persist on success. -/
def toggle_mode (dev : Nat → Bool) (disk : AuraConfig) (reverse : Bool)
    (s : WSt) : WSt × Except RogError Unit :=
  let current := s.ctrl.config.current_mode
  let bm := s.ctrl.supported_modes.basic_modes
  if bm.contains current then
    let idx := bm.indexOf current
    let idx :=
      if reverse then
        if idx = 0 then bm.length - 1 else idx - 1
      else
        if idx + 1 = bm.length then 0 else idx + 1
    let next := bm.getD idx AuraModeNum.Static
    let s1 := configRead s disk
    let s2 := updConfig s1 fun c => { c with current_mode := next }
    andThen (write_current_config_mode dev s2) fun s3 => (persist s3, .ok ())
  else
    (s, .ok ())

/-- Iterate `toggle_mode` in the forward direction, feeding each call its
own on-disk config; results are discarded, the state is threaded. -/
def toggleN (dev : Nat → Bool) (disks : Nat → AuraConfig) : Nat → WSt → WSt
  | 0, s => s
  | k + 1, s => toggleN dev disks k (toggle_mode dev (disks k) false s).1

/-- Modelled from the spec: the power-zone control flags
(`rog_aura::usb::AuraControl`, not under `src/`): an enumerated type
whose derived total order follows declaration order. -/
inductive AuraControl where
  | BootLogo
  | BootKeyb
  | SleepLogo
  | SleepKeyb
  | AwakeLogo
  | AwakeKeyb
  | ShutdownLogo
  | ShutdownKeyb
  deriving DecidableEq, Repr

/-- Declaration-order rank of a control flag, defining its `Ord`. -/
def AuraControl.rank : AuraControl → Nat
  | .BootLogo => 0
  | .BootKeyb => 1
  | .SleepLogo => 2
  | .SleepKeyb => 3
  | .AwakeLogo => 4
  | .AwakeKeyb => 5
  | .ShutdownLogo => 6
  | .ShutdownKeyb => 7

/-- Comparison of control flags by rank (the derived `Ord`). -/
def AuraControl.cmp (a b : AuraControl) : Ordering :=
  compare a.rank b.rank

/-- The ordering predicate used to state (un)sortedness of an enabled
list. -/
def AuraControl.le (a b : AuraControl) : Prop :=
  a.rank ≤ b.rank

instance : DecidableRel AuraControl.le := fun a b =>
  inferInstanceAs (Decidable (a.rank ≤ b.rank))

/-- The inner loop of Rust's `slice::binary_search_by`, written exactly
as in the standard library: `left`/`right`/`size` bookkeeping with
midpoint probing; `fuel` only bounds recursion and exceeds the iteration
count whenever it is at least the slice length plus one. -/
def binarySearchLoop (a : List AuraControl) (target : AuraControl) :
    Nat → Nat → Nat → Nat → Except Nat Nat
  | 0, _, left, _ => .error left
  | fuel + 1, size, left, right =>
      if left < right then
        let mid := left + size / 2
        let cmp := AuraControl.cmp (a.getD mid .BootLogo) target
        if cmp = Ordering.lt then
          binarySearchLoop a target fuel (right - (mid + 1)) (mid + 1) right
        else if cmp = Ordering.gt then
          binarySearchLoop a target fuel (mid - left) left mid
        else
          .ok mid
      else
        .error left

/-- Rust's `slice::binary_search` over the enabled-flags list: `Ok idx`
when the probe sequence hits the target, `Err insertion_point`
otherwise; on an unsorted list the probe sequence may miss an element
that is present. -/
def binary_search (a : List AuraControl) (target : AuraControl) : Except Nat Nat :=
  binarySearchLoop a target (a.length + 1) a.length 0 a.length

/-- Observable side effects of the daemon's `set_leds_disabled`
handler. -/
structure DaemonOutcome where
  enabled : List AuraControl
  persisted : Bool
  powerWritten : Bool
  deriving DecidableEq, Repr

/-- Remove one requested flag (`zbus.rs` lines 65-71): only when the
list claims to contain it and a binary search locates it. -/
def removeDisabled (enabled : List AuraControl) (s : AuraControl) :
    List AuraControl :=
  if enabled.contains s then
    match binary_search enabled s with
    | .ok idx => enabled.eraseIdx idx
    | .error _ => enabled
  else enabled

/-- `CtrlKbdLedZbus::set_leds_disabled` (`zbus.rs` lines 58-86): under
the lock, attempt to remove each requested flag from `config.enabled`,
then unconditionally persist the config and write the device power
state. -/
def set_leds_disabled (disabled : List AuraControl)
    (enabled : List AuraControl) : DaemonOutcome :=
  { enabled := disabled.foldl removeDisabled enabled
    persisted := true
    powerWritten := true }

/-- Option-valued lookup of the multizone set stored for a mode. -/
def mzLookup (c : AuraConfig) (m : AuraModeNum) : Option (List AuraEffect) :=
  c.multizone.bind fun mz => lookupKey mz m

/-! ## Helper lemmas -/

theorem andThen_ok (s : WSt) (f : WSt → WSt × Except RogError Unit) :
    andThen (s, .ok ()) f = f s := rfl

theorem andThen_error (s : WSt) (e : RogError)
    (f : WSt → WSt × Except RogError Unit) :
    andThen (s, .error e) f = (s, .error e) := rfl

/-- The parts of the state a pure device write can never touch. -/
def coreEq (s0 s1 : WSt) : Prop :=
  s1.ctrl.config = s0.ctrl.config ∧ s1.persisted = s0.persisted ∧
    s1.ctrl.supported_modes = s0.ctrl.supported_modes ∧
    s1.ctrl.led_node = s0.ctrl.led_node

theorem coreEq_refl (s : WSt) : coreEq s s := ⟨rfl, rfl, rfl, rfl⟩

theorem coreEq_trans {s0 s1 s2 : WSt} (h1 : coreEq s0 s1) (h2 : coreEq s1 s2) :
    coreEq s0 s2 :=
  ⟨h2.1.trans h1.1, h2.2.1.trans h1.2.1, h2.2.2.1.trans h1.2.2.1,
   h2.2.2.2.trans h1.2.2.2⟩

theorem andThen_inv {A : WSt → Prop} {r : WSt × Except RogError Unit}
    {f : WSt → WSt × Except RogError Unit} (hr : A r.1)
    (hf : ∀ s, A s → A (f s).1) : A (andThen r f).1 := by
  obtain ⟨s, e⟩ := r
  cases e with
  | ok u => cases u; exact hf s hr
  | error e => exact hr

theorem devWrite_coreEq (dev : Nat → Bool) (p : Packet) (s : WSt) :
    coreEq s (devWrite dev p s).1 := ⟨rfl, rfl, rfl, rfl⟩

theorem set_brightness_coreEq (dev : Nat → Bool) (b : LedBrightness) (s : WSt) :
    coreEq s (set_brightness dev b s).1 := by
  cases h : dev s.nWrites <;>
    simp [set_brightness, devWrite, h] <;> exact ⟨rfl, rfl, rfl, rfl⟩

theorem set_brightness_ctrl (dev : Nat → Bool) (b : LedBrightness) (s : WSt) :
    (set_brightness dev b s).1.ctrl = s.ctrl := by
  cases h : dev s.nWrites <;> simp [set_brightness, devWrite, h]

theorem write_mode_coreEq (dev : Nat → Bool) (e : AuraEffect) (s : WSt) :
    coreEq s (write_mode dev e s).1 := by
  have hflag : ∀ s' : WSt, coreEq s s' →
      coreEq s ({ s' with ctrl := { s'.ctrl with per_key_mode_active := false } }) :=
    fun s' h => ⟨h.1, h.2.1, h.2.2.1, h.2.2.2⟩
  cases hn : s.ctrl.led_node with
  | KbdLed =>
      simp only [write_mode, hn]
      exact andThen_inv (devWrite_coreEq ..) fun s' h => hflag s' h
  | Rog =>
      simp only [write_mode, hn]
      refine andThen_inv (devWrite_coreEq ..) fun s1 h1 => ?_
      refine andThen_inv (coreEq_trans h1 (devWrite_coreEq ..)) fun s2 h2 => ?_
      exact andThen_inv (coreEq_trans h2 (devWrite_coreEq ..)) fun s3 h3 => hflag s3 h3
  | None =>
      simp only [write_mode, hn]
      exact coreEq_refl s

theorem writeModes_coreEq (dev : Nat → Bool) (set : List AuraEffect) (s : WSt) :
    coreEq s (writeModes dev set s).1 := by
  induction set generalizing s with
  | nil => exact coreEq_refl s
  | cons e rest ih =>
      simp only [writeModes]
      exact andThen_inv (write_mode_coreEq ..) fun s1 h1 =>
        coreEq_trans h1 (ih s1)

/-! ## Claim C8: brightness stepping wraps at the ends -/

/-- Claim C8: `next_brightness` at level 3 wraps the stored brightness to
0 and `prev_brightness` at level 0 wraps it to 3; at every other level
they step by plus and minus one respectively, staying within 0-3. -/
theorem C8_brightness_stepping (dev : Nat → Bool) (s : WSt) :
    (next_brightness dev s).1.ctrl.config.brightness
        = (match s.ctrl.config.brightness with
           | .Off => .Low | .Low => .Med | .Med => .High | .High => .Off)
    ∧ (prev_brightness dev s).1.ctrl.config.brightness
        = (match s.ctrl.config.brightness with
           | .Off => .High | .Low => .Off | .Med => .Low | .High => .Med) := by
  constructor <;>
    cases hb : s.ctrl.config.brightness <;>
      simp [next_brightness, prev_brightness, set_brightness_ctrl, persist,
        updConfig, hb, LedBrightness.toNat, LedBrightness.fromNat]

/-! ## Claim C3: unsupported mode or zone is rejected without side effects -/

/-- Claim C3: `set_effect` with a mode outside `basic_modes`, or a
non-sentinel zone outside `basic_zones`, returns `AuraEffectNotSupported`
and leaves the whole state untouched — no device write is attempted and
the config is not mutated. -/
theorem C3_set_effect_rejects (dev : Nat → Bool) (disk : AuraConfig)
    (effect : AuraEffect) (s : WSt)
    (h : effect.mode ∉ s.ctrl.supported_modes.basic_modes ∨
      (effect.zone ≠ AuraZone.None ∧
        effect.zone ∉ s.ctrl.supported_modes.basic_zones)) :
    set_effect dev disk effect s = (s, .error .AuraEffectNotSupported) := by
  have hguard : (!s.ctrl.supported_modes.basic_modes.contains effect.mode
      || (effect.zone != AuraZone.None
          && !s.ctrl.supported_modes.basic_zones.contains effect.zone)) = true := by
    rcases h with h | ⟨h1, h2⟩
    · simp [h]
    · simp [h1, h2]
  simp only [set_effect, hguard]
  simp

/-- A concrete sample config used by several witnesses. -/
def sampleCfg : AuraConfig :=
  { builtins := [(.Static, defaultEffect .Static)]
    multizone := none
    multizone_on := false
    current_mode := .Static
    brightness := .Med }

/-- A concrete sample controller state (raw-HID path, only `Static`
supported, no zones) used by several witnesses. -/
def sampleSt : WSt :=
  { ctrl :=
      { led_node := .Rog
        supported_modes := { basic_modes := [.Static], basic_zones := [] }
        flip_effect_write := false
        per_key_mode_active := false
        config := sampleCfg }
    trace := []
    persisted := []
    nWrites := 0 }

/-- Witness for C3: a concrete rejected call (mode `Laser` while only
`Static` is supported) leaves a concrete state exactly as it was. -/
theorem C3_witness :
    set_effect (fun _ => true) sampleCfg (defaultEffect .Laser) sampleSt
      = (sampleSt, .error .AuraEffectNotSupported) :=
  C3_set_effect_rejects _ _ _ _ (Or.inl (by decide))

/-! ## Claim C1: after the merge, builtins has exactly the supported modes -/

theorem lookupKey_mergeBuiltins_isSome (i l : List (AuraModeNum × AuraEffect))
    (k : AuraModeNum) :
    (lookupKey (mergeBuiltins i l) k).isSome = (lookupKey i k).isSome := by
  induction i with
  | nil => rfl
  | cons p rest ih =>
      have hunf : mergeBuiltins (p :: rest) l
          = (match lookupKey l p.1 with
             | some v => (p.1, v)
             | none => p) :: mergeBuiltins rest l := rfl
      rw [hunf]
      by_cases hk : p.1 = k
      · subst hk
        cases hx : lookupKey l p.1 <;> simp [lookupKey]
      · cases hx : lookupKey l p.1 <;> simp [lookupKey, hk, ih]

theorem lookupKey_map_defaults (bm : List AuraModeNum) (k : AuraModeNum) :
    (lookupKey (bm.map fun m => (m, defaultEffect m)) k).isSome = true ↔ k ∈ bm := by
  induction bm with
  | nil => simp [lookupKey]
  | cons m rest ih =>
      by_cases hk : m = k
      · subst hk
        simp [lookupKey]
      · have hne : ¬k = m := fun h => hk h.symm
        simp [lookupKey, hk, hne, ih]

/-- Claim C1: for every capability set with non-empty `basic_modes` and
every loaded config, the merged config's `builtins` map has an entry for
a mode exactly when that mode is in `basic_modes` — no more and no
fewer. -/
theorem C1_merge_builtins_exact (supported : LaptopLedData) (loaded : AuraConfig)
    (hne : supported.basic_modes ≠ []) (m : AuraModeNum) :
    (lookupKey (mergedConfig supported loaded).builtins m).isSome = true ↔
      m ∈ supported.basic_modes := by
  have h1 : (mergedConfig supported loaded).builtins
      = mergeBuiltins (supported.basic_modes.map fun m => (m, defaultEffect m))
          loaded.builtins := rfl
  rw [h1, lookupKey_mergeBuiltins_isSome, lookupKey_map_defaults]

/-- Witness for C1: concrete capabilities `[Static, Breathe]` with a
loaded config carrying a stale `Laser` entry and missing `Breathe`; the
merged builtins contain `Breathe` and not `Laser`. -/
theorem C1_witness :
    (([AuraModeNum.Static, .Breathe] : List AuraModeNum) ≠ [])
    ∧ ((lookupKey (mergedConfig
          { basic_modes := [.Static, .Breathe], basic_zones := [] }
          { builtins := [(.Laser, defaultEffect .Laser)], multizone := none,
            multizone_on := false, current_mode := .Laser,
            brightness := .Low }).builtins .Breathe).isSome = true
        ↔ AuraModeNum.Breathe ∈ ([.Static, .Breathe] : List AuraModeNum))
    ∧ ((lookupKey (mergedConfig
          { basic_modes := [.Static, .Breathe], basic_zones := [] }
          { builtins := [(.Laser, defaultEffect .Laser)], multizone := none,
            multizone_on := false, current_mode := .Laser,
            brightness := .Low }).builtins .Laser).isSome = true
        ↔ AuraModeNum.Laser ∈ ([.Static, .Breathe] : List AuraModeNum)) :=
  ⟨by decide,
   C1_merge_builtins_exact _ _ (by decide) _,
   C1_merge_builtins_exact _ _ (by decide) _⟩

/-! ## Claim C2: what the merge does to loaded multizone entries -/

/-- A loaded multizone effect whose zone is unsupported but whose mode is
supported (`Static` on `Key2` while `basic_zones = [Key1]`). -/
def c2KeptEffect : AuraEffect :=
  { defaultEffect .Static with zone := .Key2 }

/-- A loaded multizone effect whose own mode field is unsupported. -/
def c2DroppedEffect : AuraEffect :=
  { defaultEffect .Laser with zone := .Key1 }

/-- The capability set of the C2 scenario. -/
def c2Caps : LaptopLedData :=
  { basic_modes := [.Static, .Breathe], basic_zones := [.Key1] }

/-- The loaded config of the C2 scenario: its multizone entry for the
supported mode `Static` holds one effect with an unsupported zone and
one with an unsupported mode. -/
def c2Loaded : AuraConfig :=
  { builtins := []
    multizone := some [(.Static, [c2KeptEffect, c2DroppedEffect])]
    multizone_on := true
    current_mode := .Static
    brightness := .Med }

/-- Counterexample to C2 as stated: after the merge the `Static`
multizone entry keeps the effect whose zone `Key2` is not in
`basic_zones` (so zone entries are not filtered by `basic_zones`) while
the effect with the unsupported mode `Laser` is dropped from the same
entry individually (so discarding is per zone-entry, not all-or-nothing
per mode). -/
theorem C2_counterexample :
    mzLookup (mergedConfig c2Caps c2Loaded) .Static = some [c2KeptEffect]
    ∧ c2KeptEffect.zone = .Key2
    ∧ c2Caps.basic_zones.contains AuraZone.Key2 = false
    ∧ mzLookup c2Loaded .Static = some [c2KeptEffect, c2DroppedEffect]
    ∧ c2DroppedEffect.mode = .Laser
    ∧ c2Caps.basic_modes.contains AuraModeNum.Laser = false := by
  decide

/-- Claim C2 (amended): the loaded multizone map is merged per key of the
fresh default multizone: a key's loaded effect list is filtered
element-wise, each effect kept exactly when its own `mode` field is in
`basic_modes`; zones are never checked against `basic_zones`, so effects
with unsupported zones survive while effects with unsupported modes are
dropped individually from the same entry; and a loaded entry survives
only for keys present in the fresh default — the wholesale replacement
drops every loaded-only key. -/
theorem lookupKey_mergeMZEntries_none (bm : List AuraModeNum)
    (l i : List (AuraModeNum × List AuraEffect)) (k : AuraModeNum)
    (hi : lookupKey i k = none) :
    lookupKey (mergeMZEntries bm l i) k = none := by
  induction i with
  | nil => rfl
  | cons p rest ih =>
      have hunf : mergeMZEntries bm l (p :: rest)
          = (match lookupKey l p.1 with
             | some x => (p.1, x.filter fun e => bm.contains e.mode)
             | none => p) :: mergeMZEntries bm l rest := rfl
      rw [hunf]
      by_cases hk : p.1 = k
      · simp [lookupKey, hk] at hi
      · simp only [lookupKey, hk, if_false] at hi
        cases hx : lookupKey l p.1 <;> simp [lookupKey, hk, ih hi]

theorem C2_amended_merge_filter (bm : List AuraModeNum)
    (i l : List (AuraModeNum × List AuraEffect)) (k : AuraModeNum) :
    (∀ dflt loaded : List AuraEffect,
      lookupKey i k = some dflt → lookupKey l k = some loaded →
      (mergeMultizone bm (some i) (some l)).bind (fun mz => lookupKey mz k)
        = some (loaded.filter fun e => bm.contains e.mode))
    ∧ (lookupKey i k = none →
      (mergeMultizone bm (some i) (some l)).bind (fun mz => lookupKey mz k)
        = none) := by
  constructor
  · intro dflt loaded hi hl
    simp only [mergeMultizone, Option.some_bind]
    induction i with
    | nil => simp [lookupKey] at hi
    | cons p rest ih =>
        have hunf : mergeMZEntries bm l (p :: rest)
            = (match lookupKey l p.1 with
               | some x => (p.1, x.filter fun e => bm.contains e.mode)
               | none => p) :: mergeMZEntries bm l rest := rfl
        rw [hunf]
        by_cases hk : p.1 = k
        · subst hk
          rw [hl]
          simp [lookupKey]
        · simp only [lookupKey, hk, if_false] at hi
          cases hx : lookupKey l p.1 <;> simp [lookupKey, hk, ih hi]
  · intro hi
    simp only [mergeMultizone, Option.some_bind]
    exact lookupKey_mergeMZEntries_none bm l i k hi

/-- Witness for C2 (amended): on the concrete C2 scenario the `Static`
key (present in the fresh default) yields exactly the element-filtered
list, while the loaded-only key `Laser` is dropped by the wholesale
replacement. -/
theorem C2_amended_witness :
    ((mergeMultizone c2Caps.basic_modes
        (some [(.Static, []), (.Breathe, [])])
        (some [(.Static, [c2KeptEffect, c2DroppedEffect]),
               (.Laser, [c2DroppedEffect])])).bind
        (fun mz => lookupKey mz .Static)
      = some ([c2KeptEffect, c2DroppedEffect].filter
          fun e => c2Caps.basic_modes.contains e.mode))
    ∧ ((mergeMultizone c2Caps.basic_modes
        (some [(.Static, []), (.Breathe, [])])
        (some [(.Static, [c2KeptEffect, c2DroppedEffect]),
               (.Laser, [c2DroppedEffect])])).bind
        (fun mz => lookupKey mz .Laser)
      = none) :=
  ⟨(C2_amended_merge_filter c2Caps.basic_modes
      [(.Static, []), (.Breathe, [])]
      [(.Static, [c2KeptEffect, c2DroppedEffect]), (.Laser, [c2DroppedEffect])]
      .Static).1 [] _ (by decide) (by decide),
   (C2_amended_merge_filter c2Caps.basic_modes
      [(.Static, []), (.Breathe, [])]
      [(.Static, [c2KeptEffect, c2DroppedEffect]), (.Laser, [c2DroppedEffect])]
      .Laser).2 (by decide)⟩

/-! ## Claim C4: config persistence versus device-write success -/

/-- The state of the C4 counterexample: raw-HID path, brightness `Off`,
nothing persisted yet. -/
def c4St : WSt :=
  { ctrl :=
      { led_node := .Rog
        supported_modes := { basic_modes := [.Static], basic_zones := [] }
        flip_effect_write := false
        per_key_mode_active := false
        config :=
          { builtins := [], multizone := none, multizone_on := false,
            current_mode := .Static, brightness := .Off } }
    trace := []
    persisted := []
    nWrites := 0 }

/-- Counterexample to C4 as stated: `write_effect_block` on a state with
brightness `Off` persists the brightness bump to `Med` before any device
write, so when every device write fails the operation propagates the
error and yet a mutated config has already been persisted. -/
theorem C4_counterexample :
    (write_effect_block (fun _ => false) [[0x5d, 0xb3]] c4St).2
        = .error .DeviceWriteFailed
    ∧ (write_effect_block (fun _ => false) [[0x5d, 0xb3]] c4St).1.persisted
        = [{ builtins := [], multizone := none, multizone_on := false,
             current_mode := .Static, brightness := .Med }]
    ∧ c4St.persisted = [] :=
  ⟨rfl, rfl, rfl⟩

/-- Claim C4 (amended): `set_effect` is write-after-confirm — when the
effect device-write step fails, the error is propagated and no persisted
mutation of the config occurs (config and persistence history are left
untouched); `write_effect_block` and the brightness steppers, by
contrast, persist config changes before their device writes. -/
theorem C4_amended_set_effect_write_after_confirm (dev : Nat → Bool)
    (disk : AuraConfig) (effect : AuraEffect) (s : WSt) (err : RogError)
    (hm : effect.mode ∈ s.ctrl.supported_modes.basic_modes)
    (hz : effect.zone = AuraZone.None ∨
      effect.zone ∈ s.ctrl.supported_modes.basic_zones)
    (hw : (write_mode dev effect s).2 = .error err) :
    set_effect dev disk effect s = ((write_mode dev effect s).1, .error err)
    ∧ (write_mode dev effect s).1.ctrl.config = s.ctrl.config
    ∧ (write_mode dev effect s).1.persisted = s.persisted := by
  have hcore := write_mode_coreEq dev effect s
  have hguard : (!s.ctrl.supported_modes.basic_modes.contains effect.mode
      || (effect.zone != AuraZone.None
          && !s.ctrl.supported_modes.basic_zones.contains effect.zone)) = false := by
    rcases hz with hz | hz
    · simp [hm, hz]
    · simp [hm, hz]
  refine ⟨?_, hcore.1, hcore.2.1⟩
  simp only [set_effect, hguard]
  rcases hwm : write_mode dev effect s with ⟨s1, r⟩
  rw [hwm] at hw
  simp only at hw
  subst hw
  simp [andThen_error]

/-- Witness for C4 (amended): a concrete `set_effect` on the raw-HID
path with every device write failing propagates the failure and leaves
the config and the persistence history untouched. -/
theorem C4_amended_witness :
    set_effect (fun _ => false) sampleCfg (defaultEffect .Static) sampleSt
        = ((write_mode (fun _ => false) (defaultEffect .Static) sampleSt).1,
           .error .DeviceWriteFailed)
    ∧ (write_mode (fun _ => false) (defaultEffect .Static) sampleSt).1.ctrl.config
        = sampleSt.ctrl.config
    ∧ (write_mode (fun _ => false) (defaultEffect .Static) sampleSt).1.persisted
        = sampleSt.persisted :=
  C4_amended_set_effect_write_after_confirm _ _ _ _ _ (by decide)
    (Or.inl (by decide)) rfl

/-! ## Claim C5: synthesis of a default multizone set -/

theorem lookupKey_insertKey_self {α : Type} (l : List (AuraModeNum × α))
    (k : AuraModeNum) (v : α) : lookupKey (insertKey l k v) k = some v := by
  induction l with
  | nil => simp [insertKey, lookupKey]
  | cons p rest ih =>
      by_cases hk : p.1 = k <;> simp [insertKey, lookupKey, hk, ih]

theorem multizoneDefaultSet_length (c : AuraModeNum) (zs : List AuraZone) :
    (multizoneDefaultSet c zs).length = zs.length := by
  simp [multizoneDefaultSet]

theorem multizoneDefaultSet_zone (c : AuraModeNum) (zs : List AuraZone)
    (i : Nat) (hi : i < (multizoneDefaultSet c zs).length) :
    ((multizoneDefaultSet c zs).get ⟨i, hi⟩).zone = zs.getD i AuraZone.None := by
  have hi' : i < zs.length := by
    simpa [multizoneDefaultSet_length] using hi
  simp [multizoneDefaultSet, List.get_eq_getElem, List.getElem?_eq_getElem hi']

theorem create_multizone_default_empty (s : WSt)
    (hz : s.ctrl.supported_modes.basic_zones = []) :
    create_multizone_default s = (s, .error .AuraEffectNotSupported) := by
  simp [create_multizone_default, multizoneDefaultSet, hz]

theorem create_multizone_default_stores (s : WSt)
    (hz : s.ctrl.supported_modes.basic_zones ≠ []) :
    (create_multizone_default s).2 = .ok ()
    ∧ mzLookup (create_multizone_default s).1.ctrl.config
        s.ctrl.config.current_mode
      = some (multizoneDefaultSet s.ctrl.config.current_mode
          s.ctrl.supported_modes.basic_zones) := by
  have hlen : multizoneDefaultSet s.ctrl.config.current_mode
      s.ctrl.supported_modes.basic_zones ≠ [] := by
    intro hcontra
    apply hz
    have hl := congrArg List.length hcontra
    rw [multizoneDefaultSet_length] at hl
    exact List.length_eq_zero.mp hl
  have hne : ((multizoneDefaultSet s.ctrl.config.current_mode
      s.ctrl.supported_modes.basic_zones).isEmpty) = false := by
    simp [List.isEmpty_iff, hlen]
  cases hmz : s.ctrl.config.multizone with
  | none =>
      simp [create_multizone_default, hne, updConfig, hmz, mzLookup, lookupKey]
  | some mz =>
      simp [create_multizone_default, hne, updConfig, hmz, mzLookup,
        lookupKey_insertKey_self]

/-- Claim C5: with `multizone_on` and no stored multizone set for
`current_mode`, `write_current_config_mode` synthesizes and stores one
`EffectSpec` per entry of `basic_zones`, in `basic_zones` order with
matching zone fields, before any device write (the set is stored for
every device-success oracle, including all-failing ones); with empty
`basic_zones` it fails with `AuraEffectNotSupported` and `multizone`
stays `None`. -/
theorem C5_write_current_config_mode_synthesizes (dev : Nat → Bool) (s : WSt)
    (hon : s.ctrl.config.multizone_on = true)
    (habs : mzLookup s.ctrl.config s.ctrl.config.current_mode = none) :
    (s.ctrl.supported_modes.basic_zones ≠ [] →
      ∃ set, mzLookup (write_current_config_mode dev s).1.ctrl.config
            s.ctrl.config.current_mode = some set
        ∧ set.length = s.ctrl.supported_modes.basic_zones.length
        ∧ ∀ i, (hi : i < set.length) →
            (set.get ⟨i, hi⟩).zone
              = s.ctrl.supported_modes.basic_zones.getD i AuraZone.None)
    ∧ (s.ctrl.supported_modes.basic_zones = [] →
        s.ctrl.config.multizone = none →
          (write_current_config_mode dev s).2 = .error .AuraEffectNotSupported
          ∧ (write_current_config_mode dev s).1.ctrl.config.multizone = none) := by
  have hcreate :
      (match s.ctrl.config.multizone with
       | none => true
       | some mz => (lookupKey mz s.ctrl.config.current_mode).isNone) = true := by
    cases hmz : s.ctrl.config.multizone with
    | none => rfl
    | some mz =>
        simp only [mzLookup, hmz, Option.some_bind] at habs
        simp [habs]
  constructor
  · intro hz
    obtain ⟨hok, hstore⟩ := create_multizone_default_stores s hz
    rcases hc : create_multizone_default s with ⟨s1, r⟩
    rw [hc] at hok hstore
    simp only at hok hstore
    subst hok
    refine ⟨multizoneDefaultSet s.ctrl.config.current_mode
      s.ctrl.supported_modes.basic_zones, ?_, multizoneDefaultSet_length .. ,
      fun i hi => multizoneDefaultSet_zone .. ⟩
    have hcw := writeModes_coreEq dev (multizoneDefaultSet
      s.ctrl.config.current_mode s.ctrl.supported_modes.basic_zones) s1
    simp only [write_current_config_mode, hon, hcreate, hc, andThen_ok,
      if_true, writeStoredMZ]
    cases hmzs : s1.ctrl.config.multizone with
    | none =>
        simp only [mzLookup, hmzs, Option.none_bind] at hstore
        exact absurd hstore (by simp)
    | some mz1 =>
        simp only [mzLookup, hmzs, Option.some_bind] at hstore
        simp only [hmzs, hstore]
        simp only [mzLookup, hcw.1, hmzs, Option.some_bind, hstore]
  · intro hz hmznone
    have hc := create_multizone_default_empty s hz
    simp [write_current_config_mode, hon, hcreate, hc, andThen_error, hmznone]

/-- The state of the C5 witness: two zones, `multizone_on`, no multizone
map, mirroring the `next_mode_create_multizone_if_no_config` scenario. -/
def c5St : WSt :=
  { ctrl :=
      { led_node := .None
        supported_modes := { basic_modes := [.Static], basic_zones := [.Key1, .Key2] }
        flip_effect_write := false
        per_key_mode_active := false
        config :=
          { builtins := [(.Static, defaultEffect .Static)], multizone := none,
            multizone_on := true, current_mode := .Static,
            brightness := .Med } }
    trace := []
    persisted := []
    nWrites := 0 }

/-- Witness for C5: on the concrete two-zone state, even with an
all-failing device oracle, a two-entry multizone set for `current_mode`
is synthesized and stored with zones `[Key1, Key2]` in order. -/
theorem C5_witness :
    (c5St.ctrl.supported_modes.basic_zones ≠ [] →
      ∃ set, mzLookup (write_current_config_mode (fun _ => false) c5St).1.ctrl.config
            c5St.ctrl.config.current_mode = some set
        ∧ set.length = c5St.ctrl.supported_modes.basic_zones.length
        ∧ ∀ i, (hi : i < set.length) →
            (set.get ⟨i, hi⟩).zone
              = c5St.ctrl.supported_modes.basic_zones.getD i AuraZone.None)
    ∧ (c5St.ctrl.supported_modes.basic_zones = [] →
        c5St.ctrl.config.multizone = none →
          (write_current_config_mode (fun _ => false) c5St).2
              = .error .AuraEffectNotSupported
          ∧ (write_current_config_mode (fun _ => false) c5St).1.ctrl.config.multizone
              = none) :=
  C5_write_current_config_mode_synthesizes (fun _ => false) c5St rfl rfl

/-! ## Claim C6: per-key frames and the initialization packet -/

theorem writeRows_success (dev : Nat → Bool) (hdev : ∀ n, dev n = true)
    (rows : List (List Nat)) (s : WSt) :
    writeRows dev rows s
      = ({ s with
            trace := s.trace ++ rows.map Packet.bytes
            nWrites := s.nWrites + rows.length }, .ok ()) := by
  induction rows generalizing s with
  | nil => simp [writeRows]
  | cons r rest ih =>
      simp [writeRows, devWrite, hdev, andThen_ok, ih, List.append_assoc]
      omega

/-- The per-key branch of `write_effect_block` under an all-success
device oracle on the raw-HID path: the initialization packet is sent
exactly when the per-key flag was clear, every row follows in order, the
flag ends set, and the operation succeeds. -/
theorem write_effect_block_perKey (dev : Nat → Bool) (hdev : ∀ n, dev n = true)
    (rows : List (List Nat)) (s : WSt)
    (hnode : s.ctrl.led_node = .Rog)
    (hpk : (rows.getD 0 []).getD 1 0 = 0xbc) :
    (write_effect_block dev rows s).2 = .ok ()
    ∧ (write_effect_block dev rows s).1.trace
        = (if s.ctrl.per_key_mode_active then s.trace ++ rows.map Packet.bytes
           else s.trace ++ Packet.bytes get_init_msg :: rows.map Packet.bytes)
    ∧ (write_effect_block dev rows s).1.ctrl.per_key_mode_active = true
    ∧ (write_effect_block dev rows s).1.ctrl.led_node = .Rog := by
  have hpk' : (rows[0]?.getD [])[1]?.getD 0 = 0xbc := by simpa using hpk
  by_cases hb : s.ctrl.config.brightness = LedBrightness.Off <;>
    cases hflag : s.ctrl.per_key_mode_active <;>
      simp [write_effect_block, hb, hpk', hflag, hnode, persist, updConfig,
        devWrite, hdev, andThen_ok, writeRows_success dev hdev]

/-- Claim C6: a per-key frame (byte 1 of the first row is `0xBC`) on the
raw-HID path with the per-key flag clear writes the fixed initialization
packet before any row, then every row packet in sequence order, and sets
the per-key flag, so that an immediately following per-key frame writes
only the row packets and no second initialization packet. -/
theorem C6_per_key_init_protocol (dev : Nat → Bool) (rows : List (List Nat))
    (s : WSt) (hdev : ∀ n, dev n = true)
    (hnode : s.ctrl.led_node = .Rog)
    (hflag : s.ctrl.per_key_mode_active = false)
    (hpk : (rows.getD 0 []).getD 1 0 = 0xbc) :
    (write_effect_block dev rows s).2 = .ok ()
    ∧ (write_effect_block dev rows s).1.trace
        = s.trace ++ Packet.bytes get_init_msg :: rows.map Packet.bytes
    ∧ (write_effect_block dev rows s).1.ctrl.per_key_mode_active = true
    ∧ (write_effect_block dev rows (write_effect_block dev rows s).1).1.trace
        = (write_effect_block dev rows s).1.trace ++ rows.map Packet.bytes := by
  obtain ⟨h1, h2, h3, h4⟩ := write_effect_block_perKey dev hdev rows s hnode hpk
  simp only [hflag, Bool.false_eq_true, if_false] at h2
  have hsecond := write_effect_block_perKey dev hdev rows
    (write_effect_block dev rows s).1 h4 hpk
  refine ⟨h1, by simpa using h2, h3, ?_⟩
  rw [hsecond.2.1, h3]
  simp

/-- The state of the C6 witness: raw-HID path, per-key flag clear. -/
def c6St : WSt :=
  { ctrl :=
      { led_node := .Rog
        supported_modes := { basic_modes := [.Static], basic_zones := [] }
        flip_effect_write := false
        per_key_mode_active := false
        config := sampleCfg }
    trace := []
    persisted := []
    nWrites := 0 }

/-- Witness for C6: a concrete two-row per-key frame on the raw-HID path
writes init then the rows, sets the flag, and a second identical frame
appends only the rows. -/
theorem C6_witness :
    (write_effect_block (fun _ => true) [[0, 0xbc, 1], [0, 0xbc, 2]] c6St).2
        = .ok ()
    ∧ (write_effect_block (fun _ => true) [[0, 0xbc, 1], [0, 0xbc, 2]] c6St).1.trace
        = c6St.trace ++ Packet.bytes get_init_msg ::
            ([[0, 0xbc, 1], [0, 0xbc, 2]] : List (List Nat)).map Packet.bytes
    ∧ (write_effect_block (fun _ => true) [[0, 0xbc, 1], [0, 0xbc, 2]]
          c6St).1.ctrl.per_key_mode_active = true
    ∧ (write_effect_block (fun _ => true) [[0, 0xbc, 1], [0, 0xbc, 2]]
          (write_effect_block (fun _ => true) [[0, 0xbc, 1], [0, 0xbc, 2]]
            c6St).1).1.trace
        = (write_effect_block (fun _ => true) [[0, 0xbc, 1], [0, 0xbc, 2]]
            c6St).1.trace ++
            ([[0, 0xbc, 1], [0, 0xbc, 2]] : List (List Nat)).map Packet.bytes :=
  C6_per_key_init_protocol (fun _ => true) [[0, 0xbc, 1], [0, 0xbc, 2]] c6St
    (fun _ => rfl) rfl rfl rfl

/-! ## Claim C7: cycling through the modes -/

theorem writeStoredMZ_preserves (dev : Nat → Bool) (mode : AuraModeNum)
    (s1 : WSt) :
    (writeStoredMZ dev mode s1).1.ctrl.config.current_mode
        = s1.ctrl.config.current_mode
    ∧ (writeStoredMZ dev mode s1).1.ctrl.supported_modes
        = s1.ctrl.supported_modes := by
  unfold writeStoredMZ
  cases hmz : s1.ctrl.config.multizone with
  | none => exact ⟨rfl, rfl⟩
  | some mz =>
      dsimp only
      cases hl : lookupKey mz mode with
      | none => exact ⟨rfl, rfl⟩
      | some set =>
          dsimp only
          have hcw := writeModes_coreEq dev set s1
          exact ⟨by rw [hcw.1], by rw [hcw.2.2.1]⟩

theorem create_multizone_default_preserves (s : WSt) :
    (create_multizone_default s).1.ctrl.config.current_mode
        = s.ctrl.config.current_mode
    ∧ (create_multizone_default s).1.ctrl.supported_modes
        = s.ctrl.supported_modes := by
  by_cases hie : (multizoneDefaultSet s.ctrl.config.current_mode
      s.ctrl.supported_modes.basic_zones).isEmpty = true
  · simp [create_multizone_default, hie]
  · cases hmz : s.ctrl.config.multizone <;>
      simp [create_multizone_default, hie, updConfig, hmz]

theorem write_current_config_mode_preserves (dev : Nat → Bool) (s : WSt) :
    (write_current_config_mode dev s).1.ctrl.config.current_mode
        = s.ctrl.config.current_mode
    ∧ (write_current_config_mode dev s).1.ctrl.supported_modes
        = s.ctrl.supported_modes := by
  by_cases hon : s.ctrl.config.multizone_on = true
  · simp only [write_current_config_mode, hon, if_true]
    refine andThen_inv (A := fun s' =>
      s'.ctrl.config.current_mode = s.ctrl.config.current_mode
      ∧ s'.ctrl.supported_modes = s.ctrl.supported_modes) ?_ ?_
    · by_cases hcr : (match s.ctrl.config.multizone with
          | none => true
          | some mz =>
              (lookupKey mz s.ctrl.config.current_mode).isNone) = true
      · simpa [hcr] using create_multizone_default_preserves s
      · simp [hcr]
    · intro t ht
      have hp := writeStoredMZ_preserves dev s.ctrl.config.current_mode t
      exact ⟨hp.1.trans ht.1, hp.2.trans ht.2⟩
  · simp only [write_current_config_mode, hon]
    rw [if_neg (by simpa using hon)]
    cases hl : lookupKey s.ctrl.config.builtins s.ctrl.config.current_mode with
    | none => exact ⟨rfl, rfl⟩
    | some e =>
        have hcw := write_mode_coreEq dev e s
        exact ⟨by rw [hcw.1], by rw [hcw.2.2.1]⟩

theorem toggle_mode_forward_step (dev : Nat → Bool) (disk : AuraConfig)
    (s : WSt)
    (hmem : s.ctrl.config.current_mode ∈ s.ctrl.supported_modes.basic_modes) :
    (toggle_mode dev disk false s).1.ctrl.config.current_mode
      = s.ctrl.supported_modes.basic_modes.getD
          ((List.indexOf s.ctrl.config.current_mode
              s.ctrl.supported_modes.basic_modes + 1)
            % s.ctrl.supported_modes.basic_modes.length) AuraModeNum.Static
    ∧ (toggle_mode dev disk false s).1.ctrl.supported_modes
      = s.ctrl.supported_modes := by
  have hcont : s.ctrl.supported_modes.basic_modes.contains
      s.ctrl.config.current_mode = true := by simp [hmem]
  have hlt : List.indexOf s.ctrl.config.current_mode
      s.ctrl.supported_modes.basic_modes
        < s.ctrl.supported_modes.basic_modes.length :=
    List.indexOf_lt_length.mpr hmem
  have hidx : (if List.indexOf s.ctrl.config.current_mode
        s.ctrl.supported_modes.basic_modes + 1
          = s.ctrl.supported_modes.basic_modes.length then 0
      else List.indexOf s.ctrl.config.current_mode
        s.ctrl.supported_modes.basic_modes + 1)
      = (List.indexOf s.ctrl.config.current_mode
          s.ctrl.supported_modes.basic_modes + 1)
        % s.ctrl.supported_modes.basic_modes.length := by
    by_cases h : List.indexOf s.ctrl.config.current_mode
        s.ctrl.supported_modes.basic_modes + 1
          = s.ctrl.supported_modes.basic_modes.length
    · rw [if_pos h, h, Nat.mod_self]
    · rw [if_neg h, Nat.mod_eq_of_lt (by omega)]
  unfold toggle_mode
  simp only [hcont, if_true, Bool.false_eq_true, if_false, hidx]
  set s2 : WSt := updConfig (configRead s disk) fun c =>
    { c with
        current_mode := s.ctrl.supported_modes.basic_modes.getD
          ((List.indexOf s.ctrl.config.current_mode
              s.ctrl.supported_modes.basic_modes + 1)
            % s.ctrl.supported_modes.basic_modes.length) AuraModeNum.Static }
    with hs2
  have hw := write_current_config_mode_preserves dev s2
  rcases hwr : write_current_config_mode dev s2 with ⟨s3, r⟩
  rw [hwr] at hw
  simp only at hw
  cases r with
  | error e => simpa [andThen_error, hs2, updConfig, configRead] using hw
  | ok u =>
      cases u
      simpa [andThen_ok, persist, hs2, updConfig, configRead] using hw

theorem toggleN_index (dev : Nat → Bool) (disks : Nat → AuraConfig)
    (SM : LaptopLedData) (hnd : SM.basic_modes.Nodup) :
    ∀ (k : Nat) (t : WSt) (j : Nat), t.ctrl.supported_modes = SM →
      j < SM.basic_modes.length →
      t.ctrl.config.current_mode = SM.basic_modes.getD j AuraModeNum.Static →
      (toggleN dev disks k t).ctrl.config.current_mode
          = SM.basic_modes.getD ((j + k) % SM.basic_modes.length)
              AuraModeNum.Static
        ∧ (toggleN dev disks k t).ctrl.supported_modes = SM := by
  intro k
  induction k with
  | zero =>
      intro t j hsm hj hcur
      rw [show toggleN dev disks 0 t = t from rfl, Nat.add_zero,
        Nat.mod_eq_of_lt hj]
      exact ⟨hcur, hsm⟩
  | succ k ih =>
      intro t j hsm hj hcur
      have hjg : SM.basic_modes.getD j AuraModeNum.Static = SM.basic_modes[j] :=
        List.getD_eq_getElem _ _ hj
      have hmem : t.ctrl.config.current_mode ∈ t.ctrl.supported_modes.basic_modes := by
        rw [hcur, hsm, hjg]
        exact List.getElem_mem hj
      obtain ⟨hstep, hsm'⟩ := toggle_mode_forward_step dev (disks k) t hmem
      rw [hsm] at hstep hsm'
      rw [hcur, hjg] at hstep
      rw [List.indexOf_getElem hnd j hj] at hstep
      have hj' : (j + 1) % SM.basic_modes.length < SM.basic_modes.length :=
        Nat.mod_lt _ (by omega)
      have hrec := ih (toggle_mode dev (disks k) false t).1
        ((j + 1) % SM.basic_modes.length) hsm' hj' hstep
      have harith : j + 1 + k = j + (k + 1) := by omega
      rw [show toggleN dev disks (k + 1) t
          = toggleN dev disks k (toggle_mode dev (disks k) false t).1 from rfl]
      rw [hrec.1, Nat.mod_add_mod, harith]
      exact ⟨rfl, hrec.2⟩

/-- Claim C7 (amended): when `basic_modes` has no duplicate entries — as
the capability data model intends, `basic_modes` being a set — applying
`toggle_mode` forward `basic_modes.length` times (with every device
write succeeding) returns `current_mode` to its starting value. -/
theorem C7_amended_cycle_closure (dev : Nat → Bool) (disks : Nat → AuraConfig)
    (s : WSt) (hdev : ∀ n, dev n = true)
    (hnd : s.ctrl.supported_modes.basic_modes.Nodup)
    (hmem : s.ctrl.config.current_mode ∈ s.ctrl.supported_modes.basic_modes) :
    (toggleN dev disks s.ctrl.supported_modes.basic_modes.length
      s).ctrl.config.current_mode = s.ctrl.config.current_mode := by
  have hlt : List.indexOf s.ctrl.config.current_mode
      s.ctrl.supported_modes.basic_modes
        < s.ctrl.supported_modes.basic_modes.length :=
    List.indexOf_lt_length.mpr hmem
  have hstart : s.ctrl.config.current_mode
      = s.ctrl.supported_modes.basic_modes.getD
          (List.indexOf s.ctrl.config.current_mode
            s.ctrl.supported_modes.basic_modes) AuraModeNum.Static := by
    rw [List.getD_eq_getElem _ _ hlt, List.getElem_indexOf hlt]
  obtain ⟨hfin, _⟩ := toggleN_index dev disks s.ctrl.supported_modes hnd
    s.ctrl.supported_modes.basic_modes.length s
    (List.indexOf s.ctrl.config.current_mode s.ctrl.supported_modes.basic_modes)
    rfl hlt hstart
  rw [hfin, Nat.add_mod_right, Nat.mod_eq_of_lt hlt]
  exact hstart.symm

/-- Capabilities of the C7 counterexample: `basic_modes` with a
duplicated entry, which the capability type (a plain list) admits. -/
def c7Caps : LaptopLedData :=
  { basic_modes := [.Static, .Breathe, .Static], basic_zones := [] }

/-- Config of the C7 counterexample (also used as the constant on-disk
config). -/
def c7Cfg : AuraConfig :=
  { builtins := [(.Static, defaultEffect .Static), (.Breathe, defaultEffect .Breathe)]
    multizone := none
    multizone_on := false
    current_mode := .Static
    brightness := .Med }

/-- State of the C7 counterexample. -/
def c7St : WSt :=
  { ctrl :=
      { led_node := .Rog
        supported_modes := c7Caps
        flip_effect_write := false
        per_key_mode_active := false
        config := c7Cfg }
    trace := []
    persisted := []
    nWrites := 0 }

/-- Counterexample to C7 as stated: with `basic_modes = [Static,
Breathe, Static]` (a list the code's capability type admits), starting
from `Static` and with every device write succeeding, three forward
toggles land on `Breathe`, not back on `Static` — the cycle does not
close because `position` always finds the first duplicate. -/
theorem C7_counterexample :
    c7St.ctrl.config.current_mode = .Static
    ∧ AuraModeNum.Static ∈ c7Caps.basic_modes
    ∧ c7Caps.basic_modes.length = 3
    ∧ (toggle_mode (fun _ => true) c7Cfg false c7St).2 = .ok ()
    ∧ (toggle_mode (fun _ => true) c7Cfg false
        (toggle_mode (fun _ => true) c7Cfg false c7St).1).2 = .ok ()
    ∧ (toggle_mode (fun _ => true) c7Cfg false
        (toggle_mode (fun _ => true) c7Cfg false
          (toggle_mode (fun _ => true) c7Cfg false c7St).1).1).2 = .ok ()
    ∧ (toggleN (fun _ => true) (fun _ => c7Cfg) 3 c7St).ctrl.config.current_mode
        = .Breathe
    ∧ AuraModeNum.Breathe ≠ .Static := by
  refine ⟨rfl, by decide, rfl, rfl, rfl, rfl, rfl, by decide⟩

/-- State of the C7 witness: duplicate-free `basic_modes`. -/
def c7WSt : WSt :=
  { ctrl :=
      { led_node := .Rog
        supported_modes := { basic_modes := [.Static, .Breathe], basic_zones := [] }
        flip_effect_write := false
        per_key_mode_active := false
        config := c7Cfg }
    trace := []
    persisted := []
    nWrites := 0 }

/-- Witness for C7 (amended): on a duplicate-free two-mode state, two
forward toggles with an all-success device bring `current_mode` back to
its start. -/
theorem C7_amended_witness :
    (toggleN (fun _ => true) (fun _ => c7Cfg)
      c7WSt.ctrl.supported_modes.basic_modes.length
      c7WSt).ctrl.config.current_mode = c7WSt.ctrl.config.current_mode :=
  C7_amended_cycle_closure (fun _ => true) (fun _ => c7Cfg) c7WSt
    (fun _ => rfl) (by decide) (by decide)

/-! ## Claim C9: disabling a zone flag relies on a binary search -/

/-- An enabled-flags list that contains `AwakeLogo` but is not sorted
(flags are appended in request order by `set_leds_enabled`). -/
def c9enabled : List AuraControl := [.AwakeLogo, .BootLogo, .BootKeyb]

/-- Claim C9: `set_leds_disabled` removes a flag only when the binary
search locates it; on a concrete unsorted enabled list that does contain
`AwakeLogo`, the search misses (returns an `Err` insertion point), the
flag is left in place, and the config is still persisted and the power
state still written. -/
theorem C9_binary_search_removal :
    c9enabled.contains AuraControl.AwakeLogo = true
    ∧ ¬List.Sorted AuraControl.le c9enabled
    ∧ binary_search c9enabled .AwakeLogo = .error 3
    ∧ (set_leds_disabled [.AwakeLogo] c9enabled).enabled = c9enabled
    ∧ (set_leds_disabled [.AwakeLogo] c9enabled).persisted = true
    ∧ (set_leds_disabled [.AwakeLogo] c9enabled).powerWritten = true :=
  ⟨rfl, by decide, rfl, rfl, rfl, rfl⟩

/-! ## Claim C10: guarded gradient indexing in the multizone default -/

/-- Claim C10: `create_multizone_default` is total — its only failure is
the guarded `AuraEffectNotSupported` on empty zones, never an
out-of-bounds access: every colour of a synthesized set is an entry of
the gradient palette (the `get` calls fall back via `unwrap_or`), and at
zone position 0 the second colour is the fixed fallback entry
`GRADIENT[6]` (the unguarded index `GRADIENT.len() - 0` is past the end,
so the fallback is taken rather than any wrapped index). -/
theorem C10_gradient_indexing_guarded :
    (∀ s : WSt, (create_multizone_default s).2 = .ok ()
        ∨ (create_multizone_default s).2 = .error .AuraEffectNotSupported)
    ∧ (∀ (current : AuraModeNum) (zones : List AuraZone) (i : Nat),
        (hi : i < (multizoneDefaultSet current zones).length) →
        ((multizoneDefaultSet current zones).get ⟨i, hi⟩).colour1 ∈ GRADIENT
        ∧ ((multizoneDefaultSet current zones).get ⟨i, hi⟩).colour2 ∈ GRADIENT)
    ∧ (∀ (current : AuraModeNum) (zones : List AuraZone),
        (h0 : 0 < (multizoneDefaultSet current zones).length) →
        ((multizoneDefaultSet current zones).get ⟨0, h0⟩).colour2
          = GRADIENT.getD 6 ⟨0, 0, 0⟩) := by
  refine ⟨?_, ?_, ?_⟩
  · intro s
    by_cases hie : (multizoneDefaultSet s.ctrl.config.current_mode
        s.ctrl.supported_modes.basic_zones).isEmpty = true
    · right
      simp [create_multizone_default, hie]
    · left
      simp [create_multizone_default, hie]
  · intro current zones i hi
    have hi' : i < zones.length := by
      simpa [multizoneDefaultSet_length] using hi
    have hc1 : ((multizoneDefaultSet current zones).get ⟨i, hi⟩).colour1
        = (GRADIENT.get? i).getD (GRADIENT.getD 0 ⟨0, 0, 0⟩) := by
      simp [multizoneDefaultSet, List.get_eq_getElem]
    have hc2 : ((multizoneDefaultSet current zones).get ⟨i, hi⟩).colour2
        = (GRADIENT.get? (usizeSub GRADIENT.length i)).getD
            (GRADIENT.getD 6 ⟨0, 0, 0⟩) := by
      simp [multizoneDefaultSet, List.get_eq_getElem]
    constructor
    · rw [hc1]
      cases hg : GRADIENT.get? i with
      | none => simp; decide
      | some c =>
          simp
          exact List.get?_mem hg
    · rw [hc2]
      cases hg : GRADIENT.get? (usizeSub GRADIENT.length i) with
      | none => simp; decide
      | some c =>
          simp
          exact List.get?_mem hg
  · intro current zones h0
    have hc2 : ((multizoneDefaultSet current zones).get ⟨0, h0⟩).colour2
        = (GRADIENT.get? (usizeSub GRADIENT.length 0)).getD
            (GRADIENT.getD 6 ⟨0, 0, 0⟩) := by
      simp [multizoneDefaultSet, List.get_eq_getElem]
    rw [hc2]
    rfl

/-- Witness for C10: concrete instantiation on a two-zone list — both
colours of entry 0 are palette entries and its second colour is the
fallback `GRADIENT[6]`. -/
theorem C10_witness :
    (((multizoneDefaultSet .Static [.Key1, .Key2]).get ⟨0, by decide⟩).colour1
        ∈ GRADIENT
      ∧ ((multizoneDefaultSet .Static [.Key1, .Key2]).get ⟨0, by decide⟩).colour2
        ∈ GRADIENT)
    ∧ ((multizoneDefaultSet .Static [.Key1, .Key2]).get ⟨0, by decide⟩).colour2
        = GRADIENT.getD 6 ⟨0, 0, 0⟩ :=
  ⟨C10_gradient_indexing_guarded.2.1 .Static [.Key1, .Key2] 0 (by decide),
   C10_gradient_indexing_guarded.2.2 .Static [.Key1, .Key2] (by decide)⟩

end Asusctl
